import Mathlib

/-!
Verification development for the `lvp` deployment stack
(`src/lib/lvp-stack.ts`).  The stack constructor is pure declarative
configuration: it declares CloudFormation parameters, a fixed set of
managed-service resources, IAM policy statements, security-group rules and
stack outputs.  We embed the declared resource graph as a Lean record,
built field by field from the source, with a symbolic value type
`CfnValue` for deploy-time references (parameter values, resource
attributes, pseudo parameters) and a resolution function that substitutes
concrete parameter values.
-/

namespace Lvp

/-- `cdk.RemovalPolicy` as used in the stack. -/
inductive RemovalPolicy
  | retain
  | destroy
deriving DecidableEq, Repr

/-- A deploy-time CloudFormation value: a string literal, a reference to a
declared parameter (`param.valueAsString`), an attribute of a declared
resource (for instance `alb.loadBalancerDnsName`), a pseudo parameter
(`Stack.of(this).region` / `.account`), or a concatenation (template
literals in the source). -/
inductive CfnValue
  | lit (s : String)
  | paramRef (name : String)
  | attr (resourceId : String) (attrName : String)
  | pseudo (name : String)
  | concat (a b : CfnValue)
deriving DecidableEq, Repr

/-- Whether a value syntactically references the parameter named `p`. -/
def CfnValue.mentionsParam : CfnValue → String → Bool
  | .lit _, _ => false
  | .paramRef n, p => n == p
  | .attr _ _, _ => false
  | .pseudo _, _ => false
  | .concat a b, p => a.mentionsParam p || b.mentionsParam p

/-- Concrete values supplied for the four declared parameters. -/
structure StackParams where
  connectionArn : String
  githubOwner : String
  githubRepo : String
  githubBranch : String
deriving DecidableEq, Repr

/-- The stack environment (account and region of `cdk.Stack`). -/
structure StackEnv where
  account : String
  region : String
deriving DecidableEq, Repr

/-- Value of a declared parameter by logical id. -/
def StackParams.lookup (p : StackParams) : String → Option String
  | "ConnectionArn" => some p.connectionArn
  | "GitHubOwner" => some p.githubOwner
  | "GitHubRepo" => some p.githubRepo
  | "GitHubBranch" => some p.githubBranch
  | _ => none

/-- Resolve a value to a concrete string when it contains no resource
attribute (parameter references and pseudo parameters substituted). -/
def CfnValue.resolveStr (p : StackParams) (e : StackEnv) : CfnValue → Option String
  | .lit s => some s
  | .paramRef n => p.lookup n
  | .attr _ _ => none
  | .pseudo n =>
      if n == "AWS::Region" then some e.region
      else if n == "AWS::AccountId" then some e.account
      else none
  | .concat a b =>
      match a.resolveStr p e, b.resolveStr p e with
      | some x, some y => some (x ++ y)
      | _, _ => none

/-- Substitute parameter values and pseudo parameters, leaving resource
attributes symbolic. -/
def CfnValue.resolve (p : StackParams) (e : StackEnv) : CfnValue → CfnValue
  | .lit s => .lit s
  | .paramRef n =>
      match p.lookup n with
      | some s => .lit s
      | none => .paramRef n
  | .attr r a => .attr r a
  | .pseudo n =>
      if n == "AWS::Region" then .lit e.region
      else if n == "AWS::AccountId" then .lit e.account
      else .pseudo n
  | .concat a b => .concat (a.resolve p e) (b.resolve p e)

/-- A `cdk.CfnParameter` declaration. -/
structure CfnParameterDecl where
  logicalId : String
  type : String
  description : Option String
  default : Option String
deriving DecidableEq, Repr

/-- The `ec2.Vpc` declaration. -/
structure VpcDecl where
  maxAzs : Nat
  natGateways : Nat
  subnetConfiguration : List (String × String)
deriving DecidableEq, Repr

/-- The `ecr.Repository` declaration. -/
structure RepositoryDecl where
  repositoryName : String
  imageScanOnPush : Bool
  removalPolicy : RemovalPolicy
deriving DecidableEq, Repr

/-- The `ecs.Cluster` declaration. -/
structure ClusterDecl where
  vpcRef : String
  clusterName : String
deriving DecidableEq, Repr

/-- An `iam.Role` declaration. -/
structure RoleDecl where
  logicalId : String
  assumedBy : String
  managedPolicies : List String
deriving DecidableEq, Repr

/-- A `logs.LogGroup` declaration. -/
structure LogGroupDecl where
  logicalId : String
  logGroupName : String
  retentionDays : Nat
  removalPolicy : RemovalPolicy
deriving DecidableEq, Repr

/-- The `ecs.FargateTaskDefinition` declaration. -/
structure TaskDefDecl where
  family : String
  cpu : Nat
  memoryLimitMiB : Nat
  taskRoleRef : String
  executionRoleRef : String
deriving DecidableEq, Repr

/-- The container added by `taskDef.addContainer`.  `healthCheck` holds the
container-level health-check command when one is declared. -/
structure ContainerDecl where
  containerName : String
  imageRepoRef : String
  imageTag : String
  logGroupRef : String
  streamPfx : String
  portMappings : List Nat
  environment : List (String × String)
  healthCheck : Option (List String)
deriving DecidableEq, Repr

/-- Source of a security-group ingress rule. -/
inductive Peer
  | anyIpv4
  | securityGroupRef (id : String)
deriving DecidableEq, Repr

/-- A rule added with `addIngressRule`. -/
structure IngressRule where
  peer : Peer
  ipProtocol : String
  port : Nat
  description : String
deriving DecidableEq, Repr

/-- An `ec2.SecurityGroup` declaration together with its ingress rules. -/
structure SecurityGroupDecl where
  logicalId : String
  vpcRef : String
  allowAllOutbound : Bool
  description : String
  ingressRules : List IngressRule
deriving DecidableEq, Repr

/-- The `ecs.FargateService` declaration. -/
structure ServiceDecl where
  clusterRef : String
  serviceName : String
  taskDefRef : String
  desiredCount : Nat
  assignPublicIp : Bool
  securityGroupRefs : List String
  vpcSubnetType : String
  minHealthyPercent : Nat
  maxHealthyPercent : Nat
  healthCheckGracePeriodSeconds : Option Nat
deriving DecidableEq, Repr

/-- The `elbv2.ApplicationLoadBalancer` declaration. -/
structure AlbDecl where
  vpcRef : String
  internetFacing : Bool
  securityGroupRef : String
  loadBalancerName : String
deriving DecidableEq, Repr

/-- A target-group health-check configuration. -/
structure HealthCheckDecl where
  path : String
  healthyHttpCodes : String
  intervalSeconds : Nat
deriving DecidableEq, Repr

/-- The listener added with `alb.addListener`. -/
structure ListenerDecl where
  port : Nat
  isOpen : Bool
deriving DecidableEq, Repr

/-- The target group added with `listener.addTargets`. -/
structure TargetGroupDecl where
  port : Nat
  targetRefs : List String
  healthCheck : Option HealthCheckDecl
deriving DecidableEq, Repr

/-- An `iam.PolicyStatement` added with `addToPolicy`. -/
structure PolicyStatementDecl where
  actions : List String
  resources : List CfnValue
deriving DecidableEq, Repr

/-- A CodeBuild webhook filter group
(`FilterGroup.inEventOf(...).andHeadRefIs(...)`). -/
structure WebhookFilterGroupDecl where
  eventActions : List String
  headRefPattern : Option CfnValue
deriving DecidableEq, Repr

/-- The `codebuild.Source.gitHub` configuration. -/
structure GitHubSourceDecl where
  owner : CfnValue
  repo : CfnValue
  branchOrRef : CfnValue
  webhook : Bool
  webhookFilters : List WebhookFilterGroupDecl
  reportBuildStatus : Bool
deriving DecidableEq, Repr

/-- The `Source.Auth` property override on the L1 project. -/
structure SourceAuthDecl where
  authType : String
  resource : CfnValue
deriving DecidableEq, Repr

/-- The `codebuild.Project` declaration. -/
structure ProjectDecl where
  projectName : String
  roleRef : String
  source : GitHubSourceDecl
  buildImage : String
  privileged : Bool
  computeType : String
  logGroupRef : String
  buildSpecFilename : String
  environmentVariables : List (String × CfnValue)
  sourceAuth : SourceAuthDecl
deriving DecidableEq, Repr

/-- A `cdk.CfnOutput` declaration. -/
structure OutputDecl where
  logicalId : String
  value : CfnValue
deriving DecidableEq, Repr

/-- Kinds of resources a stack of this shape could declare.  The last two
kinds never occur in this stack; they are listed so that their absence is
a statement about the declared graph rather than about the type. -/
inductive ResourceKind
  | vpc
  | ecrRepository
  | ecsCluster
  | iamRole
  | logGroup
  | fargateTaskDefinition
  | securityGroup
  | fargateService
  | applicationLoadBalancer
  | applicationListener
  | applicationTargetGroup
  | codebuildProject
  | codeconnectionsConnection
  | secretsManagerSecret
deriving DecidableEq, Repr

/-- A grant call such as `repo.grantPullPush(cbRole)`. -/
structure GrantDecl where
  resourceRef : String
  grant : String
  granteeRef : String
deriving DecidableEq, Repr

/-- The declared resource graph of `LvpStack`. -/
structure LvpModel where
  parameters : List CfnParameterDecl
  vpc : VpcDecl
  repo : RepositoryDecl
  cluster : ClusterDecl
  taskRole : RoleDecl
  execRole : RoleDecl
  logGroup : LogGroupDecl
  taskDef : TaskDefDecl
  container : ContainerDecl
  albSg : SecurityGroupDecl
  svcSg : SecurityGroupDecl
  service : ServiceDecl
  alb : AlbDecl
  listener : ListenerDecl
  targetGroup : TargetGroupDecl
  cbRole : RoleDecl
  grants : List GrantDecl
  cbPolicies : List PolicyStatementDecl
  cbLogGroup : LogGroupDecl
  project : ProjectDecl
  outputs : List OutputDecl
  resources : List (ResourceKind × String)
deriving DecidableEq, Repr

/-- The resource graph declared by the `LvpStack` constructor, field by
field in source order.  Parameter references and resource attributes are
kept symbolic, exactly as `valueAsString` / attribute accessors are tokens
at synthesis time. -/
def lvpStack : LvpModel where
  parameters := [
    { logicalId := "ConnectionArn", type := "String",
      description := some
        "CodeConnections ARN for GitHub (e.g., arn:aws:codeconnections:ap-northeast-1:<ACCOUNT>:connection/<ID>)",
      default := none },
    { logicalId := "GitHubOwner", type := "String",
      description := none, default := some "kobashi-yoshizumi" },
    { logicalId := "GitHubRepo", type := "String",
      description := none, default := some "lvp-example" },
    { logicalId := "GitHubBranch", type := "String",
      description := none, default := some "main" }]
  vpc := { maxAzs := 2, natGateways := 0,
           subnetConfiguration := [("public", "PUBLIC")] }
  repo := { repositoryName := "lvp-example", imageScanOnPush := true,
            removalPolicy := .retain }
  cluster := { vpcRef := "Vpc", clusterName := "lvp-cluster" }
  taskRole := { logicalId := "TaskRole",
                assumedBy := "ecs-tasks.amazonaws.com", managedPolicies := [] }
  execRole := { logicalId := "ExecutionRole",
                assumedBy := "ecs-tasks.amazonaws.com",
                managedPolicies :=
                  ["service-role/AmazonECSTaskExecutionRolePolicy"] }
  logGroup := { logicalId := "AppLogGroup", logGroupName := "/ecs/lvp-example",
                retentionDays := 7, removalPolicy := .destroy }
  taskDef := { family := "lvp-example-task", cpu := 512,
               memoryLimitMiB := 1024, taskRoleRef := "TaskRole",
               executionRoleRef := "ExecutionRole" }
  container := { containerName := "web", imageRepoRef := "EcrRepo",
                 imageTag := "latest", logGroupRef := "AppLogGroup",
                 streamPfx := "app", portMappings := [8501],
                 environment := [], healthCheck := none }
  albSg := { logicalId := "AlbSg", vpcRef := "Vpc", allowAllOutbound := true,
             description := "ALB SG",
             ingressRules :=
               [{ peer := .anyIpv4, ipProtocol := "tcp", port := 80,
                  description := "HTTP from Internet" }] }
  svcSg := { logicalId := "SvcSg", vpcRef := "Vpc", allowAllOutbound := true,
             description := "Service SG",
             ingressRules :=
               [{ peer := .securityGroupRef "AlbSg", ipProtocol := "tcp",
                  port := 8501, description := "ALB -> App 8501" }] }
  service := { clusterRef := "Cluster", serviceName := "lvp-service",
               taskDefRef := "TaskDef", desiredCount := 1,
               assignPublicIp := true, securityGroupRefs := ["SvcSg"],
               vpcSubnetType := "PUBLIC", minHealthyPercent := 50,
               maxHealthyPercent := 200,
               healthCheckGracePeriodSeconds := none }
  alb := { vpcRef := "Vpc", internetFacing := true,
           securityGroupRef := "AlbSg", loadBalancerName := "lvp-alb" }
  listener := { port := 80, isOpen := true }
  targetGroup := { port := 8501, targetRefs := ["Service"],
                   healthCheck := some
                     { path := "/", healthyHttpCodes := "200",
                       intervalSeconds := 20 } }
  cbRole := { logicalId := "CodeBuildRole",
              assumedBy := "codebuild.amazonaws.com", managedPolicies := [] }
  grants := [{ resourceRef := "EcrRepo", grant := "pullPush",
               granteeRef := "CodeBuildRole" }]
  cbPolicies := [
    { actions := ["ecs:DescribeClusters", "ecs:DescribeServices",
                  "ecs:DescribeTaskDefinition", "ecs:RegisterTaskDefinition",
                  "ecs:UpdateService"],
      resources := [.lit "*"] },
    { actions := ["iam:PassRole"],
      resources := [.attr "TaskRole" "roleArn",
                    .attr "ExecutionRole" "roleArn"] },
    { actions := ["ecr:GetAuthorizationToken"], resources := [.lit "*"] },
    { actions := ["codeconnections:UseConnection",
                  "codeconnections:GetConnection",
                  "codeconnections:GetConnectionToken"],
      resources := [.paramRef "ConnectionArn"] },
    { actions := ["logs:CreateLogStream", "logs:PutLogEvents",
                  "logs:DescribeLogStreams", "logs:CreateLogGroup"],
      resources := [.attr "CodeBuildLogGroup" "logGroupArn",
                    .concat (.attr "CodeBuildLogGroup" "logGroupArn")
                      (.lit ":*")] }]
  cbLogGroup := { logicalId := "CodeBuildLogGroup",
                  logGroupName := "/codebuild/lvp-example-build",
                  retentionDays := 7, removalPolicy := .destroy }
  project := { projectName := "lvp-example-build", roleRef := "CodeBuildRole",
               source := { owner := .paramRef "GitHubOwner",
                           repo := .paramRef "GitHubRepo",
                           branchOrRef := .paramRef "GitHubBranch",
                           webhook := true,
                           webhookFilters :=
                             [{ eventActions := ["PUSH"],
                                headRefPattern := some
                                  (.concat (.lit "^refs/heads/")
                                    (.concat (.paramRef "GitHubBranch")
                                      (.lit "$"))) }],
                           reportBuildStatus := true },
               buildImage := "STANDARD_7_0", privileged := true,
               computeType := "SMALL", logGroupRef := "CodeBuildLogGroup",
               buildSpecFilename := "buildspec.yml",
               environmentVariables := [
                 ("IMAGE_REPO_NAME", .attr "EcrRepo" "repositoryName"),
                 ("ECS_CLUSTER_NAME", .attr "Cluster" "clusterName"),
                 ("ECS_SERVICE_NAME", .attr "Service" "serviceName"),
                 ("TASK_FAMILY", .attr "TaskDef" "family"),
                 ("CONTAINER_NAME", .attr "AppContainer" "containerName"),
                 ("AWS_DEFAULT_REGION", .pseudo "AWS::Region"),
                 ("AWS_ACCOUNT_ID", .pseudo "AWS::AccountId")],
               sourceAuth := { authType := "CODECONNECTIONS",
                               resource := .paramRef "ConnectionArn" } }
  outputs := [
    { logicalId := "AlbDns", value := .attr "Alb" "loadBalancerDnsName" },
    { logicalId := "EcrRepoUri", value := .attr "EcrRepo" "repositoryUri" },
    { logicalId := "CodeBuildProjectName",
      value := .attr "AppBuild" "projectName" },
    { logicalId := "EcsClusterName", value := .attr "Cluster" "clusterName" },
    { logicalId := "EcsServiceName", value := .attr "Service" "serviceName" }]
  resources := [
    (.vpc, "Vpc"), (.ecrRepository, "EcrRepo"), (.ecsCluster, "Cluster"),
    (.iamRole, "TaskRole"), (.iamRole, "ExecutionRole"),
    (.logGroup, "AppLogGroup"), (.fargateTaskDefinition, "TaskDef"),
    (.securityGroup, "AlbSg"), (.securityGroup, "SvcSg"),
    (.fargateService, "Service"), (.applicationLoadBalancer, "Alb"),
    (.applicationListener, "Http"), (.applicationTargetGroup, "EcsTg"),
    (.iamRole, "CodeBuildRole"), (.logGroup, "CodeBuildLogGroup"),
    (.codebuildProject, "AppBuild")]

/-- Resolve a policy statement: substitute parameter and pseudo values in
its resource list. -/
def PolicyStatementDecl.resolve (p : StackParams) (e : StackEnv)
    (s : PolicyStatementDecl) : PolicyStatementDecl :=
  { s with resources := s.resources.map (CfnValue.resolve p e) }

/-- Resolve a webhook filter group. -/
def WebhookFilterGroupDecl.resolve (p : StackParams) (e : StackEnv)
    (g : WebhookFilterGroupDecl) : WebhookFilterGroupDecl :=
  { g with headRefPattern := g.headRefPattern.map (CfnValue.resolve p e) }

/-- Resolve the GitHub source configuration. -/
def GitHubSourceDecl.resolve (p : StackParams) (e : StackEnv)
    (s : GitHubSourceDecl) : GitHubSourceDecl :=
  { s with owner := s.owner.resolve p e,
           repo := s.repo.resolve p e,
           branchOrRef := s.branchOrRef.resolve p e,
           webhookFilters :=
             s.webhookFilters.map (WebhookFilterGroupDecl.resolve p e) }

/-- Resolve the build project declaration. -/
def ProjectDecl.resolve (p : StackParams) (e : StackEnv)
    (d : ProjectDecl) : ProjectDecl :=
  { d with source := d.source.resolve p e,
           environmentVariables :=
             d.environmentVariables.map
               (fun kv => (kv.1, kv.2.resolve p e)),
           sourceAuth :=
             { d.sourceAuth with
                 resource := d.sourceAuth.resource.resolve p e } }

/-- Resolve a whole declared graph against concrete parameter values and a
stack environment. -/
def LvpModel.resolve (p : StackParams) (e : StackEnv)
    (m : LvpModel) : LvpModel :=
  { m with cbPolicies := m.cbPolicies.map (PolicyStatementDecl.resolve p e),
           project := m.project.resolve p e,
           outputs :=
             m.outputs.map
               (fun o => { o with value := o.value.resolve p e }) }

/-- Synthesis: the declared graph of `LvpStack` for given parameter values
and stack environment.  The constructor reads nothing else — no clock,
no randomness, no external input — so this is a total function of
`(p, e)` alone. -/
def synth (p : StackParams) (e : StackEnv) : LvpModel :=
  lvpStack.resolve p e

/-- All deploy-time value positions of the declared graph, labelled by
where they occur. -/
def LvpModel.allCfnValues (m : LvpModel) : List (String × CfnValue) :=
  (m.cbPolicies.foldr
      (fun s acc => s.resources.map (fun v => ("cbRole.policy.resource", v))
        ++ acc) [])
  ++ [("project.source.owner", m.project.source.owner),
      ("project.source.repo", m.project.source.repo),
      ("project.source.branchOrRef", m.project.source.branchOrRef)]
  ++ (m.project.source.webhookFilters.foldr
      (fun g acc =>
        (match g.headRefPattern with
         | some v => [("project.source.webhookFilter.headRef", v)]
         | none => []) ++ acc) [])
  ++ m.project.environmentVariables.map
      (fun kv => ("project.environmentVariable." ++ kv.1, kv.2))
  ++ [("project.sourceAuth.resource", m.project.sourceAuth.resource)]
  ++ m.outputs.map (fun o => ("output." ++ o.logicalId, o.value))

/-- Number of declared resources of a given kind. -/
def LvpModel.countKind (m : LvpModel) (k : ResourceKind) : Nat :=
  (m.resources.filter (fun r => r.1 == k)).length

/-- C1: the stack declares exactly five outputs — AlbDns (the ALB DNS
name), EcrRepoUri (the ECR repository URI), CodeBuildProjectName,
EcsClusterName and EcsServiceName — and no others. -/
theorem outputs_exactly_five :
    lvpStack.outputs = [
      { logicalId := "AlbDns", value := .attr "Alb" "loadBalancerDnsName" },
      { logicalId := "EcrRepoUri", value := .attr "EcrRepo" "repositoryUri" },
      { logicalId := "CodeBuildProjectName",
        value := .attr "AppBuild" "projectName" },
      { logicalId := "EcsClusterName",
        value := .attr "Cluster" "clusterName" },
      { logicalId := "EcsServiceName",
        value := .attr "Service" "serviceName" }] := by
  decide

/-- C2: the stack declares exactly four parameters — ConnectionArn,
GitHubOwner, GitHubRepo and GitHubBranch, all of type String — and no
others. -/
theorem parameters_exactly_four :
    lvpStack.parameters.map
        (fun d => (d.logicalId, d.type, d.default)) = [
      ("ConnectionArn", "String", none),
      ("GitHubOwner", "String", some "kobashi-yoshizumi"),
      ("GitHubRepo", "String", some "lvp-example"),
      ("GitHubBranch", "String", some "main")] := by
  decide

/-- C3: for every value of the GitHubBranch parameter, the build source
uses that value as `branchOrRef` and declares a webhook whose single
filter group fires on PUSH events with head ref matching
`^refs/heads/<branch>$`. -/
theorem branch_webhook (p : StackParams) (e : StackEnv) :
    lvpStack.project.source.branchOrRef.resolveStr p e
        = some p.githubBranch
    ∧ lvpStack.project.source.webhook = true
    ∧ lvpStack.project.source.webhookFilters.map
        (fun g => (g.eventActions,
          g.headRefPattern.map (fun v => v.resolveStr p e)))
      = [(["PUSH"],
          some (some ("^refs/heads/" ++ p.githubBranch ++ "$")))] := by
  refine ⟨rfl, rfl, ?_⟩
  simp [lvpStack, CfnValue.resolveStr, StackParams.lookup,
    String.append_assoc]

/-- Instantiation of `branch_webhook` at a concrete branch value. -/
theorem branch_webhook_witness :
    lvpStack.project.source.branchOrRef.resolveStr
        ⟨"arn:example", "owner", "repo", "develop"⟩ ⟨"111122223333", "ap-northeast-1"⟩
      = some "develop"
    ∧ lvpStack.project.source.webhook = true
    ∧ lvpStack.project.source.webhookFilters.map
        (fun g => (g.eventActions,
          g.headRefPattern.map (fun v =>
            v.resolveStr ⟨"arn:example", "owner", "repo", "develop"⟩
              ⟨"111122223333", "ap-northeast-1"⟩)))
      = [(["PUSH"], some (some "^refs/heads/develop$"))] :=
  branch_webhook ⟨"arn:example", "owner", "repo", "develop"⟩
    ⟨"111122223333", "ap-northeast-1"⟩

/-- C4: the CodeBuild role's PassRole statement names exactly the task
role ARN and the execution role ARN (never the wildcard resource), and
its codeconnections statement names exactly the ConnectionArn parameter
value. -/
theorem cb_role_policies_scoped :
    lvpStack.cbPolicies.filter
        (fun s => s.actions.contains "iam:PassRole")
      = [{ actions := ["iam:PassRole"],
           resources := [.attr "TaskRole" "roleArn",
                         .attr "ExecutionRole" "roleArn"] }]
    ∧ lvpStack.cbPolicies.all
        (fun s => !(s.actions.contains "iam:PassRole")
          || !(s.resources.contains (.lit "*"))) = true
    ∧ lvpStack.cbPolicies.filter
        (fun s => s.actions.contains "codeconnections:UseConnection"
          || s.actions.contains "codeconnections:GetConnection"
          || s.actions.contains "codeconnections:GetConnectionToken")
      = [{ actions := ["codeconnections:UseConnection",
                       "codeconnections:GetConnection",
                       "codeconnections:GetConnectionToken"],
           resources := [.paramRef "ConnectionArn"] }] := by
  decide

/-- C5: the ConnectionArn parameter value occurs in exactly two value
positions of the declared graph — the codeconnections policy statement of
the CodeBuild role and the Source.Auth resource of the build project —
and the stack declares no connection resource and no secret resource. -/
theorem connection_referenced_not_created :
    lvpStack.allCfnValues.filter
        (fun lv => lv.2.mentionsParam "ConnectionArn")
      = [("cbRole.policy.resource", .paramRef "ConnectionArn"),
         ("project.sourceAuth.resource", .paramRef "ConnectionArn")]
    ∧ lvpStack.resources.all
        (fun r => !(r.1 == .codeconnectionsConnection)
          && !(r.1 == .secretsManagerSecret)) = true := by
  decide

/-- C6: the stack declares exactly one VPC, one ECR repository, one ECS
cluster, one ALB and one CodeBuild project, wired by reference passing:
the vpc into the cluster, the repository into the container image and the
pull/push grant, and the cluster, service and repository names into the
build project's environment variables. -/
theorem flat_graph_single_instances_wired :
    lvpStack.countKind .vpc = 1
    ∧ lvpStack.countKind .ecrRepository = 1
    ∧ lvpStack.countKind .ecsCluster = 1
    ∧ lvpStack.countKind .applicationLoadBalancer = 1
    ∧ lvpStack.countKind .codebuildProject = 1
    ∧ lvpStack.cluster.vpcRef = "Vpc"
    ∧ lvpStack.container.imageRepoRef = "EcrRepo"
    ∧ lvpStack.grants = [{ resourceRef := "EcrRepo", grant := "pullPush",
                           granteeRef := "CodeBuildRole" }]
    ∧ lvpStack.project.environmentVariables.lookup "IMAGE_REPO_NAME"
      = some (.attr "EcrRepo" "repositoryName")
    ∧ lvpStack.project.environmentVariables.lookup "ECS_CLUSTER_NAME"
      = some (.attr "Cluster" "clusterName")
    ∧ lvpStack.project.environmentVariables.lookup "ECS_SERVICE_NAME"
      = some (.attr "Service" "serviceName") := by
  decide

/-- C7: the stack only passes health-check configuration (path `/`,
healthy code 200, 20-second interval) to the target group; neither the
container nor the service declares a health check of its own. -/
theorem health_check_delegated :
    lvpStack.targetGroup.healthCheck
      = some { path := "/", healthyHttpCodes := "200",
               intervalSeconds := 20 }
    ∧ lvpStack.container.healthCheck = none
    ∧ lvpStack.service.healthCheckGracePeriodSeconds = none := by
  decide

/-- C8: the service security group's only ingress rule admits TCP 8501
from the ALB security group, the ALB security group's only ingress rule
admits TCP 80 from any IPv4 address, and port 8501 is shared by the
container port mapping, the target group and the service ingress rule. -/
theorem network_exposure_invariant :
    lvpStack.svcSg.ingressRules
      = [{ peer := .securityGroupRef "AlbSg", ipProtocol := "tcp",
           port := 8501, description := "ALB -> App 8501" }]
    ∧ lvpStack.albSg.ingressRules
      = [{ peer := .anyIpv4, ipProtocol := "tcp", port := 80,
           description := "HTTP from Internet" }]
    ∧ lvpStack.container.portMappings = [lvpStack.targetGroup.port]
    ∧ lvpStack.targetGroup.port = 8501 := by
  decide

/-- C9: the ECR repository is retained on stack deletion while both log
groups are destroyed, each with one-week (7-day) retention. -/
theorem registry_retained_logs_destroyed :
    lvpStack.repo.removalPolicy = .retain
    ∧ lvpStack.logGroup
      = { logicalId := "AppLogGroup", logGroupName := "/ecs/lvp-example",
          retentionDays := 7, removalPolicy := .destroy }
    ∧ lvpStack.cbLogGroup
      = { logicalId := "CodeBuildLogGroup",
          logGroupName := "/codebuild/lvp-example-build",
          retentionDays := 7, removalPolicy := .destroy } := by
  decide

/-- C10: synthesis is deterministic — equal parameter values and equal
stack environment yield identical declared resource graphs; the embedded
constructor is a total function of these alone, with no dependence on
time, randomness or other external input. -/
theorem synth_deterministic (p₁ p₂ : StackParams) (e₁ e₂ : StackEnv)
    (hp : p₁ = p₂) (he : e₁ = e₂) : synth p₁ e₁ = synth p₂ e₂ := by
  subst hp
  subst he
  rfl

/-- Instantiation of `synth_deterministic` at concrete inputs. -/
theorem synth_deterministic_witness :
    synth ⟨"arn:example", "kobashi-yoshizumi", "lvp-example", "main"⟩
        ⟨"111122223333", "ap-northeast-1"⟩
      = synth ⟨"arn:example", "kobashi-yoshizumi", "lvp-example", "main"⟩
        ⟨"111122223333", "ap-northeast-1"⟩ :=
  synth_deterministic
    ⟨"arn:example", "kobashi-yoshizumi", "lvp-example", "main"⟩
    ⟨"arn:example", "kobashi-yoshizumi", "lvp-example", "main"⟩
    ⟨"111122223333", "ap-northeast-1"⟩ ⟨"111122223333", "ap-northeast-1"⟩
    rfl rfl

end Lvp
